import Mathlib

/-!
Verification development for the Lumina media controller's core service
(`src/media-service.js`).  The repository ships two variants of the service in
that file: the D-Bus `dbus-send`/`dbus-monitor` based variant (called V1 below,
lines 1-703) and the `busctl` polling variant (called V2 below, lines 704-1007).
Strings are modelled as `List Char`; JavaScript `null`/`undefined` field values
are modelled with `Option`.
-/

set_option maxRecDepth 20000

/-- Shorthand: a JavaScript string, modelled as its list of characters. -/
abbrev Str := List Char

/-- Convert a Lean string literal into the model's string type. -/
def str (s : String) : Str := s.toList

/-- Characters removed by JavaScript `String.prototype.trim`. -/
def isJsWhitespace (c : Char) : Bool :=
  c = ' ' || c = '\t' || c = '\n' || c = '\r' || c = Char.ofNat 11 || c = Char.ofNat 12

/-- Model of `s.trim()`: drop leading and trailing whitespace. -/
def trimChars (s : Str) : Str :=
  ((s.dropWhile isJsWhitespace).reverse.dropWhile isJsWhitespace).reverse

/-- Does `s` contain `pat` as a contiguous substring?  Model of
`String.prototype.includes`. -/
def containsSub (pat : Str) : Str → Bool
  | [] => pat.isEmpty
  | c :: rest => pat.isPrefixOf (c :: rest) || containsSub pat rest

/-- Number of positions of `s` at which `pat` occurs.  The only pattern it is
used with (`string "`) has no nontrivial border, so this sliding count agrees
with the non-overlapping count of JavaScript `s.match(/pat/g).length`. -/
def countSub (pat : Str) : Str → Nat
  | [] => 0
  | c :: rest => (if pat.isPrefixOf (c :: rest) then 1 else 0) + countSub pat rest

/-- Is the last character of `s` equal to `c`? (model of `endsWith` on a
single character). -/
def lastIs (s : Str) (c : Char) : Bool := s.getLast? = some c

/-- Consume the literal `lit` from the front of `s`, returning the remainder. -/
def dropLit : Str → Str → Option Str
  | [], s => some s
  | _ :: _, [] => none
  | c :: cs, x :: xs => if x = c then dropLit cs xs else none

/-- Consume one or more decimal digits (the greedy `\d+` of the header
regex), returning the remainder. -/
def dropDigits1 : Str → Option Str
  | [] => none
  | c :: cs => if c.isDigit then some (cs.dropWhile Char.isDigit) else none

/-- Does the regex `signal time=\d+\.\d+ ` match at the start of `s`?
This is the record-start marker `handleStreamData` splits the monitor
buffer on. -/
def isHeader (s : Str) : Bool :=
  match dropLit (str "signal time=") s with
  | none => false
  | some r1 =>
    match dropDigits1 r1 with
    | none => false
    | some r2 =>
      match dropLit (str ".") r2 with
      | none => false
      | some r3 =>
        match dropDigits1 r3 with
        | none => false
        | some r4 =>
          match dropLit (str " ") r4 with
          | none => false
          | some _ => true

/-- Helper for `splitSignals`: walk the buffer, closing the current segment
(accumulated reversed in `acc`) at every position after the first where the
header pattern matches.  This matches the semantics of JavaScript
`buffer.split(/(?=signal time=\d+\.\d+ )/)`: a zero-width match at position 0
produces no leading empty segment, and every later match position starts a new
segment that keeps the header. -/
def splitSignalsAux : Str → Str → List Str
  | [], acc => [acc.reverse]
  | c :: rest, acc =>
    if acc ≠ [] ∧ isHeader (c :: rest) then
      acc.reverse :: splitSignalsAux rest [c]
    else
      splitSignalsAux rest (c :: acc)

/-- Model of `monitorBuffer.split(/(?=signal time=\d+\.\d+ )/)`. -/
def splitSignals (s : Str) : List Str := splitSignalsAux s []

/-- The completeness heuristic `handleStreamData` applies to the last
fragment of the split buffer (lines 357-370 of the V1 service). -/
def isCompleteBlock (s : Str) : Bool :=
  let t := trimChars s
  if containsSub (str "member=NameOwnerChanged") t then
    -- NameOwnerChanged has 3 string arguments; require the final quote/line.
    decide (countSub (str "string \"") t ≥ 3) && (lastIs t '"' || lastIs t '\n')
  else if containsSub (str "member=PropertiesChanged") t then
    -- PropertiesChanged ends with a closing brace or bracket.
    lastIs t (Char.ofNat 125) || lastIs t ']'
  else
    false

/-- The loop of `handleStreamData` over the split segments: whitespace-only
segments are skipped, every segment before the last is dispatched, and the
last segment is dispatched only when the completeness heuristic accepts it,
otherwise it is re-buffered.  Returns (dispatched blocks, new buffer). -/
def processSignals : List Str → List Str × Str
  | [] => ([], [])
  | [s] =>
    if trimChars s = [] then ([], [])
    else if isCompleteBlock s then ([s], []) else ([], s)
  | s :: rest =>
    let (out, buf) := processSignals rest
    if trimChars s = [] then (out, buf) else (s :: out, buf)

/-- Model of `handleStreamData(data)` acting on the accumulation buffer:
append the chunk, split on the record-start marker, dispatch ready blocks
and keep the remainder.  Returns (dispatched blocks, new buffer). -/
def handleStreamData (buffer chunk : Str) : List Str × Str :=
  processSignals (splitSignals (buffer ++ chunk))

/-- Feed a sequence of chunks through `handleStreamData`, starting from the
given buffer, collecting every dispatched block in order. -/
def feedChunks : Str → List Str → List Str × Str
  | buf, [] => ([], buf)
  | buf, c :: cs =>
    let (out, buf') := handleStreamData buf c
    let (outs, bufF) := feedChunks buf' cs
    (out ++ outs, bufF)

/-- Feed chunks into a fresh parser (empty accumulation buffer). -/
def feedAll (chunks : List Str) : List Str × Str := feedChunks [] chunks

-- Concrete signal blocks used in the C2 theorems.
/-- A complete PropertiesChanged block (ends on a closing bracket). -/
def blockProps : Str := str "signal time=1.0 member=PropertiesChanged [a] [b]"

/-- A proper prefix of `blockProps` that already satisfies the completeness
heuristic (it also ends on a closing bracket). -/
def blockPropsA : Str := str "signal time=1.0 member=PropertiesChanged [a]"

/-- The rest of `blockProps` after `blockPropsA`. -/
def blockPropsB : Str := str " [b]"

/-- A complete NameOwnerChanged block (three string arguments, ends on a
quote). -/
def blockOwner : Str :=
  str "signal time=2.0 member=NameOwnerChanged string \"a\" string \"b\" string \"c\""

/-- One record of `playerStateMap` (V1, lines 38-47 plus the fields the
merge loop can add).  `Option` fields start out absent (`undefined`). -/
structure PlayerState where
  sender : Str
  player : Str
  status : Str
  title : Str
  artist : Str
  album : Str
  artUrl : Str
  url : Option Str
  trackId : Option Str
  volume : Option Int
  lastManualUpdate : Option Nat
  lastUpdated : Option Nat
  deriving DecidableEq

/-- The record created for a sender on first observation (lines 38-48). -/
def initRecord (sender : Str) : PlayerState :=
  { sender := sender, player := str "Media Player", status := str "Stopped",
    title := str "Unknown Title", artist := str "Unknown Artist",
    album := str "---", artUrl := [], url := none, trackId := none,
    volume := none, lastManualUpdate := none, lastUpdated := none }

/-- A partial update handed to `updatePlayerState`.  `none` models an
absent / `null` / `undefined` field, which the merge loop skips.  The
`sender` key of a parsed block rewrites the same value and is omitted. -/
structure PlayerData where
  player : Option Str := none
  status : Option Str := none
  title : Option Str := none
  artist : Option Str := none
  album : Option Str := none
  artUrl : Option Str := none
  url : Option Str := none
  trackId : Option Str := none
  volume : Option Int := none
  lastManualUpdate : Option Nat := none
  deriving DecidableEq

/-- The names the merge loop treats as upgradeable generic names
(line 62). -/
def isGenericName (s : Str) : Bool :=
  s = str "Media Player" || s = str "Unknown" || s = str "VLC" || s = str "Chromium"

/-- Handling of the `player` key inside the merge loop (lines 57-67).
`cached` is `playerCache[playerMap[sender]]`; a present (truthy) cache
entry wins, otherwise only a generic current name is upgraded. -/
def mergePlayerField (cached : Option Str) (cur : Str) : Option Str → Str
  | none => cur
  | some newName =>
    match cached with
    | some c => if c.isEmpty then (if isGenericName cur then newName else cur) else c
    | none => if isGenericName cur then newName else cur

/-- The strictly additive merge loop (lines 54-70): only non-absent fields
of the update are written. -/
def mergeData (cached : Option Str) (st : PlayerState) (d : PlayerData) :
    PlayerState :=
  { st with
    player := mergePlayerField cached st.player d.player,
    status := d.status.getD st.status,
    title := d.title.getD st.title,
    artist := d.artist.getD st.artist,
    album := d.album.getD st.album,
    artUrl := d.artUrl.getD st.artUrl,
    url := d.url.or st.url,
    trackId := d.trackId.or st.trackId,
    volume := d.volume.or st.volume,
    lastManualUpdate := d.lastManualUpdate.or st.lastManualUpdate }

/-- Lines 72-75: after the merge, a truthy cached identity for a truthy
well-known name is forced onto the record unconditionally. -/
def forceCached (playerName cached : Option Str) (cur : Str) : Str :=
  match cached, playerName with
  | some c, some n => if n.isEmpty || c.isEmpty then cur else c
  | _, _ => cur

/-- Numeric value of a hexadecimal digit. -/
def hexVal (c : Char) : Option Nat :=
  if '0' ≤ c ∧ c ≤ '9' then some (c.toNat - 48)
  else if 'a' ≤ c ∧ c ≤ 'f' then some (c.toNat - 87)
  else if 'A' ≤ c ∧ c ≤ 'F' then some (c.toNat - 55)
  else none

/-- Byte denoted by two hexadecimal digits. -/
def hexByte (h1 h2 : Char) : Option Nat := do
  pure (16 * (← hexVal h1) + (← hexVal h2))

/-- First phase of `decodeURIComponent`: turn every `%XX` escape into a raw
byte and keep other characters; a malformed escape means the JS function
throws, modelled as `none`. -/
def pctTokens : Str → Option (List (Char ⊕ Nat))
  | [] => some []
  | '%' :: h1 :: h2 :: rest => do
    pure (Sum.inr (← hexByte h1 h2) :: (← pctTokens rest))
  | ['%'] => none
  | ['%', _] => none
  | c :: rest => do
    pure (Sum.inl c :: (← pctTokens rest))

/-- Second phase of `decodeURIComponent`: decode the raw bytes as UTF-8
(rejecting overlong forms, surrogates and out-of-range values, as the JS
function does). -/
def utf8Decode : List (Char ⊕ Nat) → Option Str
  | [] => some []
  | Sum.inl c :: ts => (utf8Decode ts).map (c :: ·)
  | Sum.inr b :: ts =>
    if b < 0x80 then (utf8Decode ts).map (Char.ofNat b :: ·)
    else if 0xC2 ≤ b ∧ b ≤ 0xDF then
      match ts with
      | Sum.inr b2 :: ts2 =>
        if 0x80 ≤ b2 ∧ b2 ≤ 0xBF then
          (utf8Decode ts2).map (Char.ofNat ((b - 0xC0) * 64 + (b2 - 0x80)) :: ·)
        else none
      | _ => none
    else if 0xE0 ≤ b ∧ b ≤ 0xEF then
      match ts with
      | Sum.inr b2 :: Sum.inr b3 :: ts2 =>
        if (0x80 ≤ b2 ∧ b2 ≤ 0xBF) ∧ (0x80 ≤ b3 ∧ b3 ≤ 0xBF) ∧
            (b = 0xE0 → 0xA0 ≤ b2) ∧ (b = 0xED → b2 ≤ 0x9F) then
          (utf8Decode ts2).map
            (Char.ofNat (((b - 0xE0) * 64 + (b2 - 0x80)) * 64 + (b3 - 0x80)) :: ·)
        else none
      | _ => none
    else if 0xF0 ≤ b ∧ b ≤ 0xF4 then
      match ts with
      | Sum.inr b2 :: Sum.inr b3 :: Sum.inr b4 :: ts2 =>
        if (0x80 ≤ b2 ∧ b2 ≤ 0xBF) ∧ (0x80 ≤ b3 ∧ b3 ≤ 0xBF) ∧
            (0x80 ≤ b4 ∧ b4 ≤ 0xBF) ∧
            (b = 0xF0 → 0x90 ≤ b2) ∧ (b = 0xF4 → b2 ≤ 0x8F) then
          (utf8Decode ts2).map
            (Char.ofNat ((((b - 0xF0) * 64 + (b2 - 0x80)) * 64 + (b3 - 0x80)) * 64
              + (b4 - 0x80)) :: ·)
        else none
      | _ => none
    else none

/-- Model of JavaScript `decodeURIComponent`. -/
def decodeURIComponent (s : Str) : Option Str := do
  utf8Decode (← pctTokens s)

/-- Model of Node `path.basename` (posix flavour): ignore trailing slashes
and return the last path segment. -/
def basename (p : Str) : Str :=
  ((p.reverse.dropWhile (· = '/')).takeWhile (· ≠ '/')).reverse

/-- Negation of the fallback trigger `!state.title || state.title ===
'Unknown Title'` (line 78). -/
def usableTitle (t : Str) : Bool := !t.isEmpty && t ≠ str "Unknown Title"

/-- The title derived from the source url: the basename of the decoded url,
or of the raw url when decoding throws (lines 79-83). -/
def fallbackTitle (u : Str) : Str :=
  match decodeURIComponent u with
  | some d => basename d
  | none => basename u

/-- The VLC / local-file fallback (lines 77-84): rewrite an absent or
placeholder title from a truthy url. -/
def titleAfterFallback (t : Str) (u : Option Str) : Str :=
  match u with
  | some uu => if !usableTitle t && !uu.isEmpty then fallbackTitle uu else t
  | none => t

/-- The `playerStateMap`, with JavaScript object key-insertion order. -/
abbrev StateTable := List (Str × PlayerState)

/-- Key lookup in the state table. -/
def lookupS : StateTable → Str → Option PlayerState
  | [], _ => none
  | (k, v) :: rest, s => if k = s then some v else lookupS rest s

/-- Model of `playerStateMap[sender] = record`: replace in place, or append
a new key (JavaScript object key order). -/
def insertOrReplace : StateTable → Str → PlayerState → StateTable
  | [], s, v => [(s, v)]
  | (k, w) :: rest, s, v =>
    if k = s then (s, v) :: rest else (k, w) :: insertOrReplace rest s v

/-- Status priority of the selector (line 224): Playing 3, Paused 2,
Stopped 1, anything else 0. -/
def statusWeight (s : Str) : Int :=
  if s = str "Playing" then 3
  else if s = str "Paused" then 2
  else if s = str "Stopped" then 1
  else 0

/-- Lower-case a string (JavaScript `toLowerCase` on our inputs). -/
def toLowerStr (s : Str) : Str := s.map Char.toLower

/-- The static brand hierarchy of the selector (lines 236-242). -/
def brandPriority (p : PlayerState) : Int :=
  if containsSub (str "spotify") (toLowerStr p.player) then 100
  else if containsSub (str "chrome") (toLowerStr p.player) ||
      containsSub (str "firefox") (toLowerStr p.player) then 50
  else if containsSub (str "vlc") (toLowerStr p.player) then 10
  else 0

/-- Metadata-quality score of the selector (lines 248-249). -/
def qualityScore (p : PlayerState) : Int :=
  (if p.artUrl.isEmpty then 0 else 2) + (if p.album = str "---" then 0 else 1)

/-- The sort comparator of `sendBestAvailablePlayer` (lines 222-251). -/
def cmpPlayers (a b : PlayerState) : Int :=
  if statusWeight a.status ≠ statusWeight b.status then
    statusWeight b.status - statusWeight a.status
  else if Nat.dist (a.lastUpdated.getD 0) (b.lastUpdated.getD 0) > 1000 then
    (b.lastUpdated.getD 0 : Int) - (a.lastUpdated.getD 0 : Int)
  else if brandPriority a ≠ brandPriority b then
    brandPriority b - brandPriority a
  else
    qualityScore b - qualityScore a

/-- "a sorts no later than b" under the comparator. -/
def lePlayers (a b : PlayerState) : Bool := decide (cmpPlayers a b ≤ 0)

/-- Insert into a sorted list, before the first element it is `le` to. -/
def insertLe {α : Type} (le : α → α → Bool) (x : α) : List α → List α
  | [] => [x]
  | y :: ys => if le x y then x :: y :: ys else y :: insertLe le x ys

/-- Stable insertion sort, modelling the engine's stable
`Array.prototype.sort` under a consistent comparator. -/
def sortLe {α : Type} (le : α → α → Bool) : List α → List α
  | [] => []
  | x :: xs => insertLe le x (sortLe le xs)

/-- One entry of the `player-list-update` payload (lines 298-303). -/
structure PlayerChip where
  name : Str
  sender : Str
  status : Str
  isActive : Bool
  deriving DecidableEq

/-- Decimal rendering of a number, for the de-duplication suffix. -/
def natToStr (n : Nat) : Str := (toString n).toList

/-- Count lookup in the `nameCounts` object. -/
def lookupCount : List (Str × Nat) → Str → Option Nat
  | [], _ => none
  | (k, n) :: rest, s => if k = s then some n else lookupCount rest s

/-- Model of `nameCounts[name] = n`. -/
def setCount : List (Str × Nat) → Str → Nat → List (Str × Nat)
  | [], s, n => [(s, n)]
  | (k, m) :: rest, s, n =>
    if k = s then (s, n) :: rest else (k, m) :: setCount rest s n

/-- The de-duplication loop of `sendPlayerList` (lines 288-304): repeated
display names get a numeric suffix. -/
def dedupeChips (active : Option Str) :
    List PlayerState → List (Str × Nat) → List PlayerChip
  | [], _ => []
  | p :: ps, counts =>
    match lookupCount counts p.player with
    | some n =>
      { name := p.player ++ str " (" ++ natToStr (n + 1) ++ str ")",
        sender := p.sender, status := p.status,
        isActive := decide (active = some p.sender) } ::
        dedupeChips active ps (setCount counts p.player (n + 1))
    | none =>
      { name := p.player, sender := p.sender, status := p.status,
        isActive := decide (active = some p.sender) } ::
        dedupeChips active ps (setCount counts p.player 1)

/-- Model of `sendPlayerList` (lines 282-307): filter out invalid names,
then de-duplicate. -/
def sendPlayerList (tbl : StateTable) (active : Option Str) :
    List PlayerChip :=
  dedupeChips active
    ((tbl.map Prod.snd).filter
      (fun p => !p.player.isEmpty && p.player ≠ str "No Player Detected")) []

/-- A push to the display layer over one of the V1 UI channels. -/
inductive Emission where
  | mediaUpdate (p : PlayerState)
  | playerListUpdate (l : List PlayerChip)
  deriving DecidableEq

/-- The sentinel record sent when no players are tracked (lines 209-216).
The JS object literal carries no sender/url/timestamps; those model fields
take the absent defaults. -/
def sentinelV1 : PlayerState :=
  { sender := [], player := str "No Player Detected", status := str "Stopped",
    title := str "Waiting for Media...", artist := str "---",
    album := str "---", artUrl := [], url := none, trackId := none,
    volume := none, lastManualUpdate := none, lastUpdated := none }

/-- Model of `sendBestAvailablePlayer` (lines 203-277): sort the records by
the comparator, surface the winner (or the sentinel), update the active
selection and push `media-update` plus the projected player list.  The
throttled out-of-band re-query it may additionally schedule is external
I/O and outside the state model. -/
def sendBestAvailablePlayer (tbl : StateTable) (active : Option Str) :
    Option Str × List Emission :=
  match tbl.map Prod.snd with
  | [] =>
    (none, [Emission.mediaUpdate sentinelV1,
            Emission.playerListUpdate (sendPlayerList tbl none)])
  | p :: ps =>
    let best := (sortLe lePlayers (p :: ps)).headD p
    (some best.sender,
      [Emission.mediaUpdate best,
       Emission.playerListUpdate (sendPlayerList tbl (some best.sender))])

/-- The record produced by one `updatePlayerState` call for a truthy
sender: merge, cached-identity forcing, title fallback, `lastUpdated`
stamp — in source order (lines 50-86). -/
def mergedRecord (pm pc : Str → Option Str) (now : Nat) (s : Str)
    (d : PlayerData) (st0 : PlayerState) : PlayerState :=
  let cached := (pm s).bind pc
  let st1 := mergeData cached st0 d
  let st2 := { st1 with player := forceCached (pm s) cached st1.player }
  let st3 := { st2 with title := titleAfterFallback st2.title st2.url }
  { st3 with lastUpdated := some now }

/-- Model of `updatePlayerState(sender, data)` (lines 34-88).  `pm` models
`playerMap`, `pc` models `playerCache`, `now` models `Date.now()`.
Returns the new table, the new active selection, and the emissions of the
triggered selector. -/
def updatePlayerState (pm pc : Str → Option Str) (now : Nat)
    (sender : Option Str) (d : PlayerData) (tbl : StateTable)
    (active : Option Str) : StateTable × Option Str × List Emission :=
  match sender with
  | none => (tbl, active, [])
  | some s =>
    if s.isEmpty then (tbl, active, [])
    else
      let tbl' := insertOrReplace tbl s
        (mergedRecord pm pc now s d ((lookupS tbl s).getD (initRecord s)))
      let (a', em) := sendBestAvailablePlayer tbl' active
      (tbl', a', em)

/-- Title-casing of one word inside `beautifyPlayerName` (lines 144-148),
with the pinned brand capitalisations. -/
def titleCaseWord (w : Str) : Str :=
  if toLowerStr w = str "vlc" then str "VLC"
  else if toLowerStr w = str "spotify" then str "Spotify"
  else
    match w with
    | [] => []
    | c :: rest => c.toUpper :: toLowerStr rest

/-- Formatting of one dot-segment (lines 140-149): punctuation becomes
spaces, then each word is title-cased. -/
def fmtSegment (s : Str) : Str :=
  List.intercalate (str " ")
    (((s.map (fun c => if c = '_' || c = '-' then ' ' else c)).splitOn ' ').map
      titleCaseWord)

/-- Model of `beautifyPlayerName` (lines 124-150). -/
def beautifyPlayerName (name : Str) : Option Str :=
  if name.isEmpty || name.head? = some ':' then none
  else
    let clean :=
      match dropLit (str "org.mpris.MediaPlayer2.") name with
      | some rest => rest
      | none => name
    let segments := (clean.splitOn '.').filter
      (fun seg => !(str "instance").isPrefixOf (toLowerStr seg))
    if segments.isEmpty then some (str "Media Player")
    else some (List.intercalate (str " ") (segments.map fmtSegment))

/-- The parsed content of a PropertiesChanged block, as produced by
`parseDBusBlock` (the regex field extraction itself is not modelled; every
field is independently optional, lines 441-480). -/
structure ParsedBlock where
  sender : Option Str := none
  trackId : Option Str := none
  status : Option Str := none
  title : Option Str := none
  artUrl : Option Str := none
  album : Option Str := none
  url : Option Str := none
  artist : Option Str := none
  volume : Option Int := none
  deriving DecidableEq

/-- The update object `{...parsed, player: beautifiedName}` of line 434. -/
def dataOfParsed (p : ParsedBlock) (playerName : Option Str) : PlayerData :=
  { player := playerName, status := p.status, title := p.title,
    artist := p.artist, album := p.album, artUrl := p.artUrl, url := p.url,
    trackId := p.trackId, volume := p.volume, lastManualUpdate := none }

/-- Model of the property-change path of `processSignalBlock`
(lines 423-438): reject senders that are absent, not unique-connection ids,
or unknown to `playerMap`; otherwise run the unified updater with the
beautified name. -/
def processSignalProps (pm pc : Str → Option Str) (now : Nat)
    (parsed : ParsedBlock) (tbl : StateTable) (active : Option Str) :
    StateTable × Option Str × List Emission :=
  match parsed.sender with
  | none => (tbl, active, [])
  | some s =>
    if s.head? ≠ some ':' then (tbl, active, [])
    else
      match pm s with
      | none => (tbl, active, [])
      | some name =>
        if name.isEmpty then (tbl, active, [])
        else
          updatePlayerState pm pc now (some s)
            (dataOfParsed parsed (beautifyPlayerName name)) tbl active

/-- A fire-and-forget bus method invocation issued by a dispatcher. -/
structure BusCall where
  dest : Str
  member : Str
  arg : Option Int := none
  deriving DecidableEq

/-- The JavaScript `explicit || active` target resolution (`""` is falsy). -/
def resolveTarget (explicit active : Option Str) : Option Str :=
  match explicit with
  | some t => if t.isEmpty then active else some t
  | none => active

/-- Model of V1 `togglePlayPause` (lines 602-614): resolve the target
(explicit sender or the active selection), look up its well-known name and
emit the PlayPause call.  The source assigns neither `playerStateMap` nor
`activeSenderId`, so both pass through. -/
def togglePlayPause (pm : Str → Option Str) (tbl : StateTable)
    (active : Option Str) (senderId : Option Str) :
    StateTable × Option Str × Option BusCall :=
  match resolveTarget senderId active with
  | none => (tbl, active, none)
  | some t =>
    if t.isEmpty then (tbl, active, none)
    else
      match pm t with
      | none => (tbl, active, none)
      | some nm =>
        if nm.isEmpty then (tbl, active, none)
        else (tbl, active, some { dest := nm, member := str "PlayPause" })

/-- Model of V1 `next`, `previous` and `restartTrack` (lines 619-651),
which differ only in the dispatched member: guard on the active selection,
look up the name, emit the call. -/
def simpleNavV1 (member : Str) (pm : Str → Option Str) (tbl : StateTable)
    (active : Option Str) : StateTable × Option Str × Option BusCall :=
  match active with
  | none => (tbl, active, none)
  | some t =>
    if t.isEmpty then (tbl, active, none)
    else
      match pm t with
      | none => (tbl, active, none)
      | some nm =>
        if nm.isEmpty then (tbl, active, none)
        else (tbl, active, some { dest := nm, member := member })

/-- Model of V1 `setVolume` (lines 653-664): a Properties.Set call on the
active player.  The wire value is `val / 100` as a double; the model keeps
the raw 0-100 integer. -/
def setVolume (pm : Str → Option Str) (tbl : StateTable)
    (active : Option Str) (val : Int) :
    StateTable × Option Str × Option BusCall :=
  match active with
  | none => (tbl, active, none)
  | some t =>
    if t.isEmpty then (tbl, active, none)
    else
      match pm t with
      | none => (tbl, active, none)
      | some nm =>
        if nm.isEmpty then (tbl, active, none)
        else (tbl, active,
          some { dest := nm, member := str "SetVolume", arg := some val })

/-- An `amixer sset Master <percent>% [unmute]` invocation. -/
structure AmixerCall where
  percent : Int
  unmute : Bool
  deriving DecidableEq

/-- Model of V1 `setSystemVolume` (lines 682-686): the value is passed
through verbatim, always together with the `unmute` flag. -/
def setSystemVolumeV1 (val : Int) : AmixerCall :=
  { percent := val, unmute := true }

/-- Model of V2 `setSystemVolume` (lines 978-984): clamp to 0-100, always
together with the `unmute` flag. -/
def setSystemVolumeV2 (val : Int) : AmixerCall :=
  { percent := max 0 (min 100 val), unmute := true }

/-- One metadata record built by V2 `getPlayerMetadata` (lines 813-821).
The V2 sentinel object lacks album/artUrl/rawName; those model fields hold
the empty string. -/
structure V2Display where
  player : Str
  title : Str
  artist : Str
  album : Str
  artUrl : Str
  status : Str
  rawName : Str
  deriving DecidableEq

/-- The V2 no-player sentinel (lines 868-873). -/
def sentinelV2 : V2Display :=
  { player := str "No Player", title := str "No Media Playing",
    artist := [], album := [], artUrl := [], status := str "Stopped",
    rawName := [] }

/-- One entry of the V2 `player-list-update` payload (lines 919-925). -/
structure V2Chip where
  id : Str
  sender : Str
  name : Str
  status : Str
  isActive : Bool
  deriving DecidableEq

/-- A push to the display layer over one of the V2 UI channels. -/
inductive EmissionV2 where
  | mediaUpdate (d : V2Display)
  | playerListUpdate (l : List V2Chip)
  | systemVolumeUpdate (v : Int)
  deriving DecidableEq

/-- The V2 module state (lines 721-725).  `lastKnown` and `lastListStr`
model the JSON.stringify change-detection caches structurally; `none` is
the initial value that compares unequal to every real payload. -/
structure V2State where
  active : Option Str
  lastKnown : Option V2Display
  lastListStr : Option (List V2Chip)
  lastSysVol : Option Int
  deriving DecidableEq

/-- Model of V2 `getRunningPlayers` (lines 758-775): `shellOut` is the
`execShell` result (`none` models a transport failure or timeout); the
JSON parsing of the busctl reply is abstracted to the name array it
yields, and a parse failure — which the source also turns into `[]` — is
covered by `none`.  Note every failure path returns `[]`, never `null`. -/
def getRunningPlayers (shellOut : Option (List Str)) : List Str :=
  match shellOut with
  | none => []
  | some names =>
    names.filter (fun n => (str "org.mpris.MediaPlayer2.").isPrefixOf n)

/-- The candidate scan of V2 `pollLoop` (lines 887-907): prefer a Playing
player, and among Playing players the one already active. -/
def scanCandidates (active : Option Str) :
    List V2Display → Option V2Display → Bool → Option V2Display × Bool
  | [], best, ex => (best, ex)
  | d :: ds, best, ex =>
    let ex' := ex || decide (active = some d.rawName)
    let best' :=
      if d.status = str "Playing" then
        match best with
        | none => some d
        | some b =>
          if b.status ≠ str "Playing" then some d
          else if active = some d.rawName then some d else some b
      else best
    scanCandidates active ds best' ex'

/-- Candidate selection of V2 `pollLoop` including the history fallback
(lines 883-916). -/
def pickCandidate (active : Option Str) (ps : List V2Display) :
    Option V2Display :=
  match scanCandidates active ps none false with
  | (some b, _) => some b
  | (none, ex) =>
    if ex then ps.find? (fun p => decide (active = some p.rawName))
    else ps.head?

/-- The V2 `player-list-update` payload (lines 919-925). -/
def v2Chips (ps : List V2Display) (best : Option V2Display) : List V2Chip :=
  ps.map (fun p =>
    { id := p.rawName, sender := p.rawName, name := p.player,
      status := p.status,
      isActive :=
        match best with
        | some b => decide (b.rawName = p.rawName)
        | none => false })

/-- Model of V2 `pollLoop` (lines 842-947).  `sysVol` is the parsed
`getSystemVolume` result; `players` is the value the source compares
against `null` (the value actually supplied is `getRunningPlayers`'s
result), with each surviving player's fetched metadata substituted in
(fetch failures are dropped by the `continue` on line 889). -/
def pollLoop (sysVol : Option Int) (players : Option (List V2Display))
    (force : Bool) (st : V2State) : V2State × List EmissionV2 :=
  let stem :=
    match sysVol with
    | none => (st, ([] : List EmissionV2))
    | some v =>
      if st.lastSysVol ≠ some v ∨ force then
        ({ st with lastSysVol := some v }, [EmissionV2.systemVolumeUpdate v])
      else (st, [])
  let st1 := stem.1
  let em1 := stem.2
  match players with
  | none => (st1, em1)
  | some [] =>
    ({ st1 with active := none }, em1 ++ [EmissionV2.mediaUpdate sentinelV2])
  | some (p :: ps) =>
    let best := pickCandidate st1.active (p :: ps)
    let chips := v2Chips (p :: ps) best
    let stem2 :=
      if st1.lastListStr ≠ some chips ∨ force then
        ({ st1 with lastListStr := some chips },
          em1 ++ [EmissionV2.playerListUpdate chips])
      else (st1, em1)
    match best with
    | none => stem2
    | some b =>
      let st3 := { stem2.1 with active := some b.rawName }
      if stem2.1.lastKnown ≠ some b ∨ force then
        ({ st3 with lastKnown := some b },
          stem2.2 ++ [EmissionV2.mediaUpdate b])
      else (st3, stem2.2)

/-- Model of V2 `simpleControl` (lines 957-971): resolve the target, record
an explicit switch in `activePlayerName`, and emit the busctl call.  The
delayed follow-up poll it schedules is not part of the state transform. -/
def simpleControl (method : Str) (targetId : Option Str) (st : V2State) :
    V2State × Option BusCall :=
  match resolveTarget targetId st.active with
  | none => (st, none)
  | some t =>
    if t.isEmpty then (st, none)
    else
      (match targetId with
        | some tid => if tid.isEmpty then st else { st with active := some tid }
        | none => st,
        some { dest := t, member := method })

/-- Model of the close-handler of V1 `refreshPlayerMap` (lines 163-194)
given the names matched in the captured stdout and the owner-resolution
results: rebuild the name map and purge every state entry whose sender no
longer owns a name.  A spawn error resolves `{}` without running this
handler; the re-sync of newly discovered players and the selector call are
separate side effects. -/
def refreshPlayerMapClose (stdoutNames : List Str)
    (owners : Str → Option Str) (tbl : StateTable) :
    List (Str × Str) × StateTable :=
  let newMap := stdoutNames.filterMap (fun n => (owners n).map (fun o => (o, n)))
  (newMap, tbl.filter (fun kv => newMap.any (fun ow => decide (ow.1 = kv.1))))

/-- Claim-level statement that update `B`'s present fields are a subset of
update `A`'s present fields. -/
def subsetFields (B A : PlayerData) : Prop :=
  (B.player.isSome → A.player.isSome) ∧ (B.status.isSome → A.status.isSome) ∧
  (B.title.isSome → A.title.isSome) ∧ (B.artist.isSome → A.artist.isSome) ∧
  (B.album.isSome → A.album.isSome) ∧ (B.artUrl.isSome → A.artUrl.isSome) ∧
  (B.url.isSome → A.url.isSome) ∧ (B.trackId.isSome → A.trackId.isSome) ∧
  (B.volume.isSome → A.volume.isSome) ∧
  (B.lastManualUpdate.isSome → A.lastManualUpdate.isSome)

instance (B A : PlayerData) : Decidable (subsetFields B A) := by
  unfold subsetFields; infer_instance

-- Concrete instances used by witnesses and counterexamples.

/-- A Playing record with no recency, brand or metadata advantages. -/
def c1recA : PlayerState := { initRecord (str ":1.1") with status := str "Playing" }

/-- A Paused record that beats `c1recA` on every other criterion. -/
def c1recB : PlayerState :=
  { initRecord (str ":1.2") with
    status := str "Paused", player := str "Spotify",
    artUrl := str "http://art", album := str "An Album",
    lastUpdated := some 5000 }

/-- An always-miss name map / identity cache. -/
def noLookup : Str → Option Str := fun _ => none

/-- The sender used by the C3 scenarios. -/
def c3s : Str := str ":1.3"

/-- Update A of the C3 witness: a title and a source url. -/
def c3A : PlayerData := { title := some (str "My Song"), url := some (str "a/b.mp3") }

/-- Update B of the C3 witness: only the url (a subset of A's fields). -/
def c3B : PlayerData := { url := some (str "a/b.mp3") }

/-- Table after applying `c3A` to an empty table. -/
def c3T1 : StateTable := (updatePlayerState noLookup noLookup 1 (some c3s) c3A [] none).1

/-- Table after then applying `c3B`. -/
def c3T2 : StateTable := (updatePlayerState noLookup noLookup 2 (some c3s) c3B c3T1 none).1

/-- The record after update A of the C3 witness. -/
def c3r1 : PlayerState := (lookupS c3T1 c3s).getD (initRecord c3s)

/-- The record after updates A then B of the C3 witness. -/
def c3r2 : PlayerState := (lookupS c3T2 c3s).getD (initRecord c3s)

/-- Update A of the C3 counterexample: a placeholder title plus a url whose
decoded basename is again the placeholder. -/
def c3cexA : PlayerData :=
  { title := some (str "Unknown Title"), url := some (str "x/Unknown%20Title") }

/-- Update B of the C3 counterexample: only the url, pointing at a new
file. -/
def c3cexB : PlayerData := { url := some (str "y/song.mp3") }

/-- Table after applying `c3cexA` to an empty table. -/
def c3cexT1 : StateTable :=
  (updatePlayerState noLookup noLookup 1 (some c3s) c3cexA [] none).1

/-- Table after then applying `c3cexB`. -/
def c3cexT2 : StateTable :=
  (updatePlayerState noLookup noLookup 2 (some c3s) c3cexB c3cexT1 none).1

/-- Name map of the C4 counterexample: the sender owns `org.x.y`. -/
def c4pm : Str → Option Str :=
  fun s => if s = str ":1.7" then some (str "org.x.y") else none

/-- Identity cache of the C4 counterexample: `org.x.y` resolved to the
generic name. -/
def c4pc : Str → Option Str :=
  fun n => if n = str "org.x.y" then some (str "Media Player") else none

/-- A record that already carries a specific display name. -/
def c4rec : PlayerState :=
  { initRecord (str ":1.7") with player := str "Spotify", title := str "Song" }

/-- The C4 counterexample table. -/
def c4tbl : StateTable := [(str ":1.7", c4rec)]

/-- A signal update carrying a (beautified) player name. -/
def c4data : PlayerData := { player := some (str "Spotify") }

/-- The C4 witness table: a specific name, no cache entry anywhere. -/
def c4tblW : StateTable :=
  [(str ":1.9", { initRecord (str ":1.9") with player := str "Spotify" })]

/-- A property-change block from a sender unknown to `playerMap`. -/
def c8parsed : ParsedBlock :=
  { sender := some (str ":1.42"), status := some (str "Playing") }

/-- Name map of the C8 witness: the sender is a known player. -/
def c8pmW : Str → Option Str :=
  fun s => if s = str ":1.8" then some (str "org.mpris.MediaPlayer2.spotify") else none

/-- A property-change block from the known sender of `c8pmW`. -/
def c8parsedW : ParsedBlock :=
  { sender := some (str ":1.8"), status := some (str "Playing") }

/-- A V2 metadata record for the C5 scenario. -/
def c5disp : V2Display :=
  { player := str "Spotify", title := str "T", artist := str "A",
    album := [], artUrl := [], status := str "Playing",
    rawName := str "org.mpris.MediaPlayer2.spotify" }

/-- V2 state with a sticky active player and known last state. -/
def c5st : V2State :=
  { active := some (str "org.mpris.MediaPlayer2.spotify"),
    lastKnown := some c5disp, lastListStr := none, lastSysVol := some 40 }

/-- An idle V2 state. -/
def c6st : V2State :=
  { active := none, lastKnown := none, lastListStr := none, lastSysVol := none }

/-- A V2 state with some active player, for the C7 counterexample. -/
def c7st : V2State :=
  { active := some (str "x"), lastKnown := none, lastListStr := none,
    lastSysVol := none }

/-- If every block in the list is non-whitespace and accepted by the
completeness heuristic, the dispatch loop emits all of them and leaves an
empty buffer. -/
theorem processSignals_all_complete (g : List Str)
    (h : ∀ b ∈ g, trimChars b ≠ [] ∧ isCompleteBlock b = true) :
    processSignals g = (g, []) := by
  induction g with
  | nil => rfl
  | cons s rest ih =>
    cases rest with
    | nil =>
      obtain ⟨h1, h2⟩ := h s (by simp)
      simp [processSignals, h1, h2]
    | cons t ts =>
      have ih' := ih (fun b hb => h b (List.mem_cons_of_mem _ hb))
      obtain ⟨h1, _⟩ := h s (by simp)
      simp [processSignals, ih', h1]

/-- Feeding chunks that are each a concatenation of whole records (the
splitter recovers exactly those records from each chunk, every record is
non-whitespace and heuristically complete) dispatches exactly the record
sequence and ends with an empty buffer. -/
theorem feedAll_record_chunks (G : List (List Str))
    (hs : ∀ g ∈ G, splitSignals g.flatten = g)
    (hb : ∀ b ∈ G.flatten, trimChars b ≠ [] ∧ isCompleteBlock b = true) :
    feedAll (G.map List.flatten) = (G.flatten, []) := by
  induction G with
  | nil => rfl
  | cons g G' ih =>
    have hg : splitSignals g.flatten = g := hs g (by simp)
    have hpr : processSignals g = (g, []) :=
      processSignals_all_complete g (fun b hbg => hb b (by simp [List.flatten, hbg]))
    have ih' : feedAll (G'.map List.flatten) = (G'.flatten, []) :=
      ih (fun g' hg' => hs g' (by simp [hg']))
        (fun b hbb => hb b (by simp [List.flatten, hbb]))
    simp only [feedAll, feedChunks, List.map_cons, handleStreamData,
      List.nil_append, hg, hpr] at ih' ⊢
    simp [ih', List.flatten]


/-- C2 counterexample: the claim fails as stated.  The single complete
PropertiesChanged record `blockProps` dispatched whole yields `[blockProps]`,
but delivering the same bytes as the two chunks `blockPropsA`/`blockPropsB`
makes the completeness heuristic fire on the proper prefix `blockPropsA`
(its trimmed form ends on a closing bracket), which is dispatched as a
record of its own while the tail ` [b]` is buffered forever: the dispatched
sets differ. -/
theorem c2_chunk_invariance_cex :
    blockPropsA ++ blockPropsB = blockProps ∧
    (feedAll [blockProps]).1 = [blockProps] ∧
    (feedAll [blockPropsA, blockPropsB]).1 = [blockPropsA] ∧
    (feedAll [blockPropsA, blockPropsB]).1 ≠ (feedAll [blockProps]).1 := by
  decide

/-- C2 (amended): chunk-boundary invariance holds provided every chunk
boundary falls on a logical-record boundary — each chunk is a concatenation
of whole records, recovered as such by the record-start splitter — and
every record is non-whitespace and satisfies the completeness heuristic.
Then any two such chunkings of the same record sequence dispatch exactly the
same records. -/
theorem c2_chunk_invariance_amended (G1 G2 : List (List Str))
    (hjoin : G1.flatten = G2.flatten)
    (hs1 : ∀ g ∈ G1, splitSignals g.flatten = g)
    (hs2 : ∀ g ∈ G2, splitSignals g.flatten = g)
    (hb : ∀ b ∈ G1.flatten, trimChars b ≠ [] ∧ isCompleteBlock b = true) :
    (feedAll (G1.map List.flatten)).1 = (feedAll (G2.map List.flatten)).1 := by
  rw [feedAll_record_chunks G1 hs1 hb,
    feedAll_record_chunks G2 hs2 (by rw [← hjoin]; exact hb)]
  exact congrArg Prod.fst (congrArg (·, ([] : Str)) hjoin)

/-- C2 witness: the amended invariance applied to the two-record stream
`blockProps, blockOwner`, chunked one record at a time versus delivered
whole. -/
theorem c2_chunk_invariance_amended_witness :
    (feedAll ([[blockProps], [blockOwner]].map List.flatten)).1 =
      (feedAll ([[blockProps, blockOwner]].map List.flatten)).1 :=
  c2_chunk_invariance_amended [[blockProps], [blockOwner]]
    [[blockProps, blockOwner]] (by decide) (by decide) (by decide) (by decide)

/-- A falsy sender makes `updatePlayerState` a no-op (specialisation used
by several proofs). -/
theorem updatePlayerState_empty_sender (pm pc : Str → Option Str) (now : Nat)
    (d : PlayerData) (tbl : StateTable) (active : Option Str) :
    updatePlayerState pm pc now (some []) d tbl active = (tbl, active, []) := rfl

/-- For a truthy sender, the new table replaces (or appends) the merged
record at the sender's key. -/
theorem updatePlayerState_table (pm pc : Str → Option Str) (now : Nat)
    (s : Str) (d : PlayerData) (tbl : StateTable) (active : Option Str)
    (hs : s ≠ []) :
    (updatePlayerState pm pc now (some s) d tbl active).1 =
      insertOrReplace tbl s
        (mergedRecord pm pc now s d ((lookupS tbl s).getD (initRecord s))) := by
  cases s with
  | nil => exact absurd rfl hs
  | cons c cs => rfl

/-- Looking up the key just written returns the written record. -/
theorem lookupS_insertOrReplace (tbl : StateTable) (s : Str) (v : PlayerState) :
    lookupS (insertOrReplace tbl s v) s = some v := by
  induction tbl with
  | nil => simp [insertOrReplace, lookupS]
  | cons kv rest ih =>
    obtain ⟨k, w⟩ := kv
    by_cases h : k = s
    · simp [insertOrReplace, lookupS, h]
    · simp [insertOrReplace, lookupS, h, ih]

theorem mergedRecord_status (pm pc : Str → Option Str) (now : Nat) (s : Str)
    (d : PlayerData) (st0 : PlayerState) :
    (mergedRecord pm pc now s d st0).status = d.status.getD st0.status := rfl

theorem mergedRecord_artist (pm pc : Str → Option Str) (now : Nat) (s : Str)
    (d : PlayerData) (st0 : PlayerState) :
    (mergedRecord pm pc now s d st0).artist = d.artist.getD st0.artist := rfl

theorem mergedRecord_album (pm pc : Str → Option Str) (now : Nat) (s : Str)
    (d : PlayerData) (st0 : PlayerState) :
    (mergedRecord pm pc now s d st0).album = d.album.getD st0.album := rfl

theorem mergedRecord_artUrl (pm pc : Str → Option Str) (now : Nat) (s : Str)
    (d : PlayerData) (st0 : PlayerState) :
    (mergedRecord pm pc now s d st0).artUrl = d.artUrl.getD st0.artUrl := rfl

theorem mergedRecord_url (pm pc : Str → Option Str) (now : Nat) (s : Str)
    (d : PlayerData) (st0 : PlayerState) :
    (mergedRecord pm pc now s d st0).url = d.url.or st0.url := rfl

theorem mergedRecord_trackId (pm pc : Str → Option Str) (now : Nat) (s : Str)
    (d : PlayerData) (st0 : PlayerState) :
    (mergedRecord pm pc now s d st0).trackId = d.trackId.or st0.trackId := rfl

theorem mergedRecord_volume (pm pc : Str → Option Str) (now : Nat) (s : Str)
    (d : PlayerData) (st0 : PlayerState) :
    (mergedRecord pm pc now s d st0).volume = d.volume.or st0.volume := rfl

theorem mergedRecord_lastManualUpdate (pm pc : Str → Option Str) (now : Nat)
    (s : Str) (d : PlayerData) (st0 : PlayerState) :
    (mergedRecord pm pc now s d st0).lastManualUpdate =
      d.lastManualUpdate.or st0.lastManualUpdate := rfl

theorem mergedRecord_player (pm pc : Str → Option Str) (now : Nat) (s : Str)
    (d : PlayerData) (st0 : PlayerState) :
    (mergedRecord pm pc now s d st0).player =
      forceCached (pm s) ((pm s).bind pc)
        (mergePlayerField ((pm s).bind pc) st0.player d.player) := rfl

theorem mergedRecord_title (pm pc : Str → Option Str) (now : Nat) (s : Str)
    (d : PlayerData) (st0 : PlayerState) :
    (mergedRecord pm pc now s d st0).title =
      titleAfterFallback (d.title.getD st0.title) (d.url.or st0.url) := rfl

theorem forceCached_none (pn : Option Str) (cur : Str) :
    forceCached pn none cur = cur := by
  cases pn <;> rfl

/-- Forcing the cached identity twice is the same as forcing it once. -/
theorem forceCached_idem (pn c : Option Str) (x : Str) :
    forceCached pn c (forceCached pn c x) = forceCached pn c x := by
  cases c with
  | none => cases pn <;> rfl
  | some cc =>
    cases pn with
    | none => rfl
    | some n =>
      by_cases h : (n.isEmpty || cc.isEmpty) = true
      · simp [forceCached, h]
      · simp [forceCached, h]

/-- A usable title is never rewritten by the fallback. -/
theorem titleAfterFallback_usable (t : Str) (u : Option Str)
    (h : usableTitle t = true) : titleAfterFallback t u = t := by
  cases u with
  | none => rfl
  | some uu => simp [titleAfterFallback, h]

/-- Re-running the fallback against the same url changes nothing. -/
theorem titleAfterFallback_idem (t : Str) (u : Option Str) :
    titleAfterFallback (titleAfterFallback t u) u = titleAfterFallback t u := by
  cases u with
  | none => rfl
  | some uu =>
    cases h : (!usableTitle t && !uu.isEmpty) with
    | true =>
      simp only [titleAfterFallback, h, if_true]
      cases h2 : (!usableTitle (fallbackTitle uu) && !uu.isEmpty) <;> simp [h2]
    | false => simp [titleAfterFallback, h]

/-- C10: a falsy connection id — `null`/`undefined` (modelled `none`) or
the empty string — makes `updatePlayerState` return immediately: no record
is created or mutated, the active selection is untouched, and nothing is
pushed to the display channels. -/
theorem c10_falsy_sender_noop (pm pc : Str → Option Str) (now : Nat)
    (d : PlayerData) (tbl : StateTable) (active : Option Str) :
    updatePlayerState pm pc now none d tbl active = (tbl, active, []) ∧
    updatePlayerState pm pc now (some []) d tbl active = (tbl, active, []) :=
  ⟨rfl, rfl⟩

/-- When the status weights differ, the comparator decides on them alone. -/
theorem cmpPlayers_status_ne (a b : PlayerState)
    (h : statusWeight a.status ≠ statusWeight b.status) :
    cmpPlayers a b = statusWeight b.status - statusWeight a.status := by
  unfold cmpPlayers
  rw [if_pos h]

/-- C1: with two records in the table, one Playing and the other Paused or
Stopped, the selector surfaces the Playing record — as the `media-update`
payload and as the new active selection — in either slot order and
regardless of every other field (recency, brand, metadata). -/
theorem c1_status_dominates (k1 k2 : Str) (a b : PlayerState)
    (active : Option Str)
    (ha : a.status = str "Playing")
    (hb : b.status = str "Paused" ∨ b.status = str "Stopped") :
    (sendBestAvailablePlayer [(k1, a), (k2, b)] active).1 = some a.sender ∧
    (sendBestAvailablePlayer [(k1, a), (k2, b)] active).2.head? =
      some (Emission.mediaUpdate a) ∧
    (sendBestAvailablePlayer [(k2, b), (k1, a)] active).1 = some a.sender ∧
    (sendBestAvailablePlayer [(k2, b), (k1, a)] active).2.head? =
      some (Emission.mediaUpdate a) := by
  have hwa : statusWeight a.status = 3 := by rw [ha]; rfl
  have hwb : statusWeight b.status = 2 ∨ statusWeight b.status = 1 := by
    rcases hb with h | h
    · exact Or.inl (by rw [h]; rfl)
    · exact Or.inr (by rw [h]; rfl)
  have hne : statusWeight a.status ≠ statusWeight b.status := by
    rcases hwb with h | h <;> rw [hwa, h] <;> norm_num
  have hne' : statusWeight b.status ≠ statusWeight a.status := fun e => hne e.symm
  have hab : cmpPlayers a b ≤ 0 := by
    rw [cmpPlayers_status_ne a b hne, hwa]
    rcases hwb with h | h <;> rw [h] <;> norm_num
  have hba : ¬ cmpPlayers b a ≤ 0 := by
    rw [cmpPlayers_status_ne b a hne', hwa]
    rcases hwb with h | h <;> rw [h] <;> norm_num
  have hle : lePlayers a b = true := by simp [lePlayers, hab]
  have hnle : lePlayers b a = false := by simp [lePlayers, hba]
  refine ⟨?_, ?_, ?_, ?_⟩ <;>
    simp [sendBestAvailablePlayer, sortLe, insertLe, hle, hnle]

/-- C1 witness: a bare Playing record beats a Paused record that wins on
recency, brand and metadata, in both slot orders. -/
theorem c1_status_dominates_witness :
    (sendBestAvailablePlayer [(str "k1", c1recA), (str "k2", c1recB)] none).1 =
      some c1recA.sender ∧
    (sendBestAvailablePlayer [(str "k2", c1recB), (str "k1", c1recA)] none).1 =
      some c1recA.sender :=
  ⟨(c1_status_dominates (str "k1") (str "k2") c1recA c1recB none rfl
      (Or.inl rfl)).1,
    (c1_status_dominates (str "k1") (str "k2") c1recA c1recB none rfl
      (Or.inl rfl)).2.2.1⟩

/-- C3 counterexample: with update A carrying the placeholder title and a
url whose decoded basename is again the placeholder, a later update B that
carries only the url (a subset of A's fields) re-derives the title even
though `title` is not a field of B: the title field of A does not hold its
post-A value after both updates. -/
theorem c3_additive_merge_cex :
    subsetFields c3cexB c3cexA ∧
    c3cexB.title = none ∧ c3cexA.title.isSome = true ∧
    (lookupS c3cexT1 c3s).map PlayerState.title =
      some (str "Unknown Title") ∧
    (lookupS c3cexT2 c3s).map PlayerState.title = some (str "song.mp3") ∧
    (lookupS c3cexT2 c3s).map PlayerState.title ≠
      (lookupS c3cexT1 c3s).map PlayerState.title := by
  refine ⟨?_, rfl, rfl, ?_, ?_, ?_⟩ <;> decide

/-- C3 (amended): applying updates A then B to the same connection id with
B's fields a subset of A's leaves every field absent from B unchanged,
except `title`: the derived-title fallback may rewrite it when B updates
the source url while the record's title is absent or the placeholder.  If
B does not carry a url, or the post-A title is usable, the title too is
unchanged. -/
theorem c3_additive_merge_amended (pm pc : Str → Option Str) (n1 n2 : Nat)
    (s : Str) (A B : PlayerData) (tbl : StateTable) (act1 act2 : Option Str)
    (r1 r2 : PlayerState)
    (hsub : subsetFields B A)
    (h1 : lookupS (updatePlayerState pm pc n1 (some s) A tbl act1).1 s = some r1)
    (h2 : lookupS (updatePlayerState pm pc n2 (some s) B
        (updatePlayerState pm pc n1 (some s) A tbl act1).1 act2).1 s = some r2) :
    (B.status = none → r2.status = r1.status) ∧
    (B.artist = none → r2.artist = r1.artist) ∧
    (B.album = none → r2.album = r1.album) ∧
    (B.artUrl = none → r2.artUrl = r1.artUrl) ∧
    (B.url = none → r2.url = r1.url) ∧
    (B.trackId = none → r2.trackId = r1.trackId) ∧
    (B.volume = none → r2.volume = r1.volume) ∧
    (B.lastManualUpdate = none → r2.lastManualUpdate = r1.lastManualUpdate) ∧
    (B.player = none → r2.player = r1.player) ∧
    (B.title = none → B.url = none → r2.title = r1.title) ∧
    (B.title = none → usableTitle r1.title = true → r2.title = r1.title) := by
  cases s with
  | nil =>
    rw [updatePlayerState_empty_sender] at h1 h2
    rw [updatePlayerState_empty_sender] at h2
    rw [h1] at h2
    injection h2 with h2'
    subst h2'
    exact ⟨fun _ => rfl, fun _ => rfl, fun _ => rfl, fun _ => rfl,
      fun _ => rfl, fun _ => rfl, fun _ => rfl, fun _ => rfl, fun _ => rfl,
      fun _ _ => rfl, fun _ _ => rfl⟩
  | cons c cs =>
    have hs : (c :: cs : Str) ≠ [] := by simp
    rw [updatePlayerState_table pm pc n2 (c :: cs) B _ act2 hs,
      lookupS_insertOrReplace, h1, Option.getD_some] at h2
    injection h2 with h2'
    subst h2'
    rw [updatePlayerState_table pm pc n1 (c :: cs) A tbl act1 hs,
      lookupS_insertOrReplace] at h1
    injection h1 with h1'
    subst h1'
    refine ⟨?_, ?_, ?_, ?_, ?_, ?_, ?_, ?_, ?_, ?_, ?_⟩
    · intro hB; rw [mergedRecord_status, hB]; rfl
    · intro hB; rw [mergedRecord_artist, hB]; rfl
    · intro hB; rw [mergedRecord_album, hB]; rfl
    · intro hB; rw [mergedRecord_artUrl, hB]; rfl
    · intro hB; rw [mergedRecord_url, hB]; rfl
    · intro hB; rw [mergedRecord_trackId, hB]; rfl
    · intro hB; rw [mergedRecord_volume, hB]; rfl
    · intro hB; rw [mergedRecord_lastManualUpdate, hB]; rfl
    · intro hB
      rw [mergedRecord_player pm pc n2, hB]
      show forceCached (pm (c :: cs)) ((pm (c :: cs)).bind pc)
          (mergedRecord pm pc n1 (c :: cs) A _ |>.player) = _
      rw [mergedRecord_player pm pc n1]
      exact forceCached_idem _ _ _
    · intro hBt hBu
      rw [mergedRecord_title pm pc n2, hBt, hBu]
      show titleAfterFallback
          (mergedRecord pm pc n1 (c :: cs) A _ |>.title)
          (mergedRecord pm pc n1 (c :: cs) A _ |>.url) = _
      rw [mergedRecord_title pm pc n1, mergedRecord_url pm pc n1]
      exact titleAfterFallback_idem _ _
    · intro hBt hu
      rw [mergedRecord_title pm pc n2, hBt]
      exact titleAfterFallback_usable _ _ hu

/-- C3 witness: the amended invariant applied to concrete updates — B
(only a url) after A (title and url) leaves the status field, and here
even the title, untouched. -/
theorem c3_additive_merge_amended_witness :
    subsetFields c3B c3A ∧ c3r2.status = c3r1.status ∧
    c3r2.title = c3r1.title :=
  ⟨by decide,
    (c3_additive_merge_amended noLookup noLookup 1 2 c3s c3A c3B [] none none
      c3r1 c3r2 (by decide) (by decide) (by decide)).1 rfl,
    ((c3_additive_merge_amended noLookup noLookup 1 2 c3s c3A c3B [] none none
      c3r1 c3r2 (by decide) (by decide) (by decide)).2.2.2.2.2.2.2.2.2.2) rfl
      (by decide)⟩

/-- C4 counterexample: a record whose display name is already the specific
"Spotify" is overwritten with the generic "Media Player" by a subsequent
update, because the identity cache for the record's current well-known
name holds that generic value and the cache takes priority
unconditionally. -/
theorem c4_display_name_cex :
    isGenericName c4rec.player = false ∧
    (lookupS c4tbl (str ":1.7")).map PlayerState.player =
      some (str "Spotify") ∧
    (lookupS (updatePlayerState c4pm c4pc 5 (some (str ":1.7")) c4data c4tbl
        none).1 (str ":1.7")).map PlayerState.player =
      some (str "Media Player") ∧
    isGenericName (str "Media Player") = true := by
  refine ⟨rfl, rfl, ?_, rfl⟩
  decide

/-- C4 (amended): when the identity cache holds no entry for the record's
well-known name (`playerCache[playerMap[sender]]` is absent), a
non-generic display name — not one of "Media Player", "Unknown", "VLC",
"Chromium" — is never replaced by any signal or poll update; with a cache
entry present, the cached identity takes priority unconditionally. -/
theorem c4_display_name_amended (pm pc : Str → Option Str) (now : Nat)
    (s : Str) (d : PlayerData) (tbl : StateTable) (active : Option Str)
    (r : PlayerState) (hr : lookupS tbl s = some r)
    (hcache : (pm s).bind pc = none)
    (hg : isGenericName r.player = false) :
    (lookupS (updatePlayerState pm pc now (some s) d tbl active).1 s).map
      PlayerState.player = some r.player := by
  cases s with
  | nil => rw [updatePlayerState_empty_sender, hr]; rfl
  | cons c cs =>
    rw [updatePlayerState_table pm pc now (c :: cs) d tbl active (by simp),
      lookupS_insertOrReplace, hr, Option.getD_some, Option.map_some']
    rw [mergedRecord_player, hcache, forceCached_none]
    cases d.player with
    | none => rfl
    | some n => simp [mergePlayerField, hg]

/-- C4 witness: with no cache entry, the specific name "Spotify" survives
an update that offers a different candidate name. -/
theorem c4_display_name_amended_witness :
    (lookupS (updatePlayerState noLookup noLookup 7 (some (str ":1.9"))
      { player := some (str "Media Player") } c4tblW none).1
        (str ":1.9")).map PlayerState.player = some (str "Spotify") :=
  c4_display_name_amended noLookup noLookup 7 (str ":1.9")
    { player := some (str "Media Player") } c4tblW none
    { initRecord (str ":1.9") with player := str "Spotify" }
    (by decide) rfl (by decide)

/-- C8 counterexample: a property-change signal whose sender is not in
`playerMap` is rejected before the state updater runs — no record is
created for the new connection id. -/
theorem c8_first_observation_cex :
    c8parsed.sender = some (str ":1.42") ∧
    lookupS ([] : StateTable) (str ":1.42") = none ∧
    (processSignalProps noLookup noLookup 3 c8parsed [] none).1 = [] ∧
    lookupS (processSignalProps noLookup noLookup 3 c8parsed [] none).1
      (str ":1.42") = none := by
  refine ⟨rfl, rfl, rfl, rfl⟩

/-- C8 (amended): a property-change signal creates a record for a new
connection id provided the sender is a unique-connection id known to
`playerMap`; and the poll path (the unified updater itself) creates a
record for any truthy sender unconditionally. -/
theorem c8_first_observation_amended (pm pc : Str → Option Str) (now : Nat)
    (parsed : ParsedBlock) (tbl : StateTable) (active : Option Str)
    (s name : Str)
    (hsender : parsed.sender = some s)
    (hcolon : s.head? = some ':')
    (hknown : pm s = some name) (hname : name ≠ [])
    (hnew : lookupS tbl s = none) :
    (lookupS (processSignalProps pm pc now parsed tbl active).1 s).isSome
      = true ∧
    ∀ d : PlayerData,
      (lookupS (updatePlayerState pm pc now (some s) d tbl active).1 s).isSome
        = true := by
  have hs : s ≠ [] := by
    intro h
    rw [h] at hcolon
    simp at hcolon
  have hupd : ∀ d : PlayerData,
      (lookupS (updatePlayerState pm pc now (some s) d tbl active).1 s).isSome
        = true := by
    intro d
    rw [updatePlayerState_table pm pc now s d tbl active hs,
      lookupS_insertOrReplace]
    rfl
  refine ⟨?_, hupd⟩
  cases name with
  | nil => exact absurd rfl hname
  | cons c2 cs2 =>
    simp only [processSignalProps, hsender, hknown, hcolon, ne_eq,
      Option.some.injEq, not_true_eq_false, if_false, List.isEmpty_cons]
    exact hupd (dataOfParsed parsed (beautifyPlayerName (c2 :: cs2)))

/-- C8 witness: a signal from a known sender not yet in the table creates
its record. -/
theorem c8_first_observation_amended_witness :
    (lookupS (processSignalProps c8pmW noLookup 4 c8parsedW [] none).1
      (str ":1.8")).isSome = true :=
  (c8_first_observation_amended c8pmW noLookup 4 c8parsedW [] none
    (str ":1.8") (str "org.mpris.MediaPlayer2.spotify") rfl rfl
    (by decide) (by decide) rfl).1

/-- V1 `togglePlayPause` passes the table and the active selection
through unchanged. -/
theorem togglePlayPause_frame (pm : Str → Option Str) (tbl : StateTable)
    (active senderId : Option Str) :
    (togglePlayPause pm tbl active senderId).1 = tbl ∧
    (togglePlayPause pm tbl active senderId).2.1 = active := by
  unfold togglePlayPause
  constructor <;> (repeat' split) <;> rfl

/-- V1 `next`/`previous`/`restartTrack` pass the table and the active
selection through unchanged. -/
theorem simpleNavV1_frame (member : Str) (pm : Str → Option Str)
    (tbl : StateTable) (active : Option Str) :
    (simpleNavV1 member pm tbl active).1 = tbl ∧
    (simpleNavV1 member pm tbl active).2.1 = active := by
  unfold simpleNavV1
  constructor <;> (repeat' split) <;> rfl

/-- V1 `setVolume` passes the table and the active selection through
unchanged. -/
theorem setVolume_frame (pm : Str → Option Str) (tbl : StateTable)
    (active : Option Str) (val : Int) :
    (setVolume pm tbl active val).1 = tbl ∧
    (setVolume pm tbl active val).2.1 = active := by
  unfold setVolume
  constructor <;> (repeat' split) <;> rfl

/-- V2 `simpleControl` touches no state apart from the active selection,
which it either keeps or sets to the explicitly supplied target. -/
theorem simpleControl_frame (method : Str) (targetId : Option Str)
    (st : V2State) :
    (simpleControl method targetId st).1.lastKnown = st.lastKnown ∧
    (simpleControl method targetId st).1.lastListStr = st.lastListStr ∧
    (simpleControl method targetId st).1.lastSysVol = st.lastSysVol ∧
    ((simpleControl method targetId st).1.active = st.active ∨
      (simpleControl method targetId st).1.active = targetId) := by
  unfold simpleControl
  refine ⟨?_, ?_, ?_, ?_⟩ <;> (repeat' split) <;> simp

/-- C6 counterexample: an explicitly targeted V2 control call changes the
stored active selection, so the dispatcher does not leave all state
unchanged. -/
theorem c6_dispatcher_frame_cex :
    c6st.active = none ∧
    (simpleControl (str "PlayPause")
        (some (str "org.mpris.MediaPlayer2.vlc")) c6st).1.active =
      some (str "org.mpris.MediaPlayer2.vlc") ∧
    (simpleControl (str "PlayPause")
        (some (str "org.mpris.MediaPlayer2.vlc")) c6st).1.active ≠
      c6st.active := by
  refine ⟨rfl, rfl, by decide⟩

/-- C6 (amended): every V1 dispatcher operation (toggle, next/previous/
restart, player volume) leaves the state table and the stored active
selection unchanged; V2's `simpleControl` leaves the rest of the state
unchanged but sets the stored active selection to the explicit target when
one is supplied. -/
theorem c6_dispatcher_frame_amended (pm : Str → Option Str)
    (tbl : StateTable) (active senderId : Option Str) (member : Str)
    (val : Int) (targetId : Option Str) (st : V2State) :
    (togglePlayPause pm tbl active senderId).1 = tbl ∧
    (togglePlayPause pm tbl active senderId).2.1 = active ∧
    (simpleNavV1 member pm tbl active).1 = tbl ∧
    (simpleNavV1 member pm tbl active).2.1 = active ∧
    (setVolume pm tbl active val).1 = tbl ∧
    (setVolume pm tbl active val).2.1 = active ∧
    (simpleControl member targetId st).1.lastKnown = st.lastKnown ∧
    (simpleControl member targetId st).1.lastListStr = st.lastListStr ∧
    (simpleControl member targetId st).1.lastSysVol = st.lastSysVol ∧
    ((simpleControl member targetId st).1.active = st.active ∨
      (simpleControl member targetId st).1.active = targetId) :=
  ⟨(togglePlayPause_frame pm tbl active senderId).1,
    (togglePlayPause_frame pm tbl active senderId).2,
    (simpleNavV1_frame member pm tbl active).1,
    (simpleNavV1_frame member pm tbl active).2,
    (setVolume_frame pm tbl active val).1,
    (setVolume_frame pm tbl active val).2,
    (simpleControl_frame member targetId st).1,
    (simpleControl_frame member targetId st).2.1,
    (simpleControl_frame member targetId st).2.2.1,
    (simpleControl_frame member targetId st).2.2.2⟩

/-- C7 counterexample: the claim fails on both variants.  V1's sentinel
carries the artist placeholder "---", not an empty artist; V2 emits only
the sentinel in the empty branch and no `player-list-update` at all. -/
theorem c7_empty_set_cex :
    (sendBestAvailablePlayer [] none).2 =
      [Emission.mediaUpdate sentinelV1, Emission.playerListUpdate []] ∧
    sentinelV1.artist ≠ [] ∧
    (pollLoop none (some []) false c7st).2 =
      [EmissionV2.mediaUpdate sentinelV2] ∧
    sentinelV2.artist = [] := by
  refine ⟨rfl, by decide, rfl, rfl⟩

/-- C7 (amended): with no tracked players, V1 emits the sentinel with
placeholder title "Waiting for Media..." and artist "---" (not empty) plus
an empty player list; V2 emits the sentinel with placeholder title
"No Media Playing" and an empty artist, clears the active selection, and
emits nothing on the player-list channel in that cycle. -/
theorem c7_empty_set_amended :
    (∀ act : Option Str,
      sendBestAvailablePlayer [] act =
        (none, [Emission.mediaUpdate sentinelV1,
                Emission.playerListUpdate []])) ∧
    sentinelV1.title = str "Waiting for Media..." ∧
    sentinelV1.artist = str "---" ∧
    (∀ (st : V2State) (f : Bool),
      pollLoop none (some []) f st =
        ({ st with active := none }, [EmissionV2.mediaUpdate sentinelV2])) ∧
    sentinelV2.title = str "No Media Playing" ∧
    sentinelV2.artist = [] :=
  ⟨fun _ => rfl, rfl, rfl, fun _ _ => rfl, rfl, rfl⟩

/-- C9 counterexample: the V1 system-volume setter does not clamp — the
value 150 is passed to the mixer as 150%, outside 0-100 (the un-mute flag
is present). -/
theorem c9_volume_clamp_cex :
    (setSystemVolumeV1 150).percent = 150 ∧
    ¬ ((setSystemVolumeV1 150).percent ≤ 100) ∧
    (setSystemVolumeV1 150).unmute = true := by
  refine ⟨rfl, by decide, rfl⟩

/-- C9 (amended): the V2 setter clamps the requested value to the integer
range 0-100 and always passes the explicit un-mute flag; the V1 setter
also always passes the un-mute flag but forwards the value unclamped. -/
theorem c9_volume_clamp_amended (val : Int) :
    (setSystemVolumeV2 val).percent = max 0 (min 100 val) ∧
    0 ≤ (setSystemVolumeV2 val).percent ∧
    (setSystemVolumeV2 val).percent ≤ 100 ∧
    (setSystemVolumeV2 val).unmute = true ∧
    (setSystemVolumeV1 val).percent = val ∧
    (setSystemVolumeV1 val).unmute = true := by
  refine ⟨rfl, ?_, ?_, rfl, rfl, rfl⟩ <;> simp [setSystemVolumeV2]

/-- C5 (code bug): a transport failure makes `execShell` yield null, on
which `getRunningPlayers` returns `[]` — not `null` — so `pollLoop`'s
"players === null → preserve state" guard is dead: the cycle takes the
zero-players branch, clears the active selection and pushes the no-player
sentinel, contrary to the source's own "Do NOT clear state" comment.  On
the V1 side, a failed listing that yields empty output purges every
tracked record. -/
theorem c5_transport_failure_bug :
    getRunningPlayers none = [] ∧
    (∀ fetch : Str → Option V2Display,
      (getRunningPlayers none).filterMap fetch = []) ∧
    pollLoop none (some []) false c5st =
      ({ c5st with active := none }, [EmissionV2.mediaUpdate sentinelV2]) ∧
    c5st.active ≠ none ∧
    refreshPlayerMapClose [] noLookup
      [(str ":1.4", initRecord (str ":1.4"))] = ([], []) := by
  refine ⟨rfl, fun fetch => rfl, rfl, by decide, by decide⟩
